import Mathlib

/-!
Shallow embedding of `src/unstructured/documents/elements.py` and proofs about
its element taxonomy: identity assignment via SHA-256, metadata serialization,
category-specific markdown rendering, the cleaning pipeline, and the type
registry.
-/

namespace Unstructured

/-! ## SHA-256

The source derives text-element identifiers with
`hashlib.sha256(text.encode()).hexdigest()[:32]`.  We embed SHA-256
(FIPS 180-4) over byte lists, with 32-bit words as `Nat` reduced `% 2^32`.
-/

/-- 32-bit bitwise complement. -/
def not32 (a : Nat) : Nat := a ^^^ (2 ^ 32 - 1)

/-- Rotate a 32-bit word right by `n` bits. -/
def rotr32 (n a : Nat) : Nat := (a >>> n) ||| ((a <<< (32 - n)) % 2 ^ 32)

/-- The 64 SHA-256 round constants (fractional parts of cube roots of the
first 64 primes). -/
def sha256K : List Nat :=
  [1116352408, 1899447441, 3049323471, 3921009573, 961987163, 1508970993,
   2453635748, 2870763221, 3624381080, 310598401, 607225278, 1426881987,
   1925078388, 2162078206, 2614888103, 3248222580, 3835390401, 4022224774,
   264347078, 604807628, 770255983, 1249150122, 1555081692, 1996064986,
   2554220882, 2821834349, 2952996808, 3210313671, 3336571891, 3584528711,
   113926993, 338241895, 666307205, 773529912, 1294757372, 1396182291,
   1695183700, 1986661051, 2177026350, 2456956037, 2730485921, 2820302411,
   3259730800, 3345764771, 3516065817, 3600352804, 4094571909, 275423344,
   430227734, 506948616, 659060556, 883997877, 958139571, 1322822218,
   1537002063, 1747873779, 1955562222, 2024104815, 2227730452, 2361852424,
   2428436474, 2756734187, 3204031479, 3329325298]

/-- Working state of the SHA-256 compression function: eight 32-bit words. -/
structure SHA256State where
  a : Nat
  b : Nat
  c : Nat
  d : Nat
  e : Nat
  f : Nat
  g : Nat
  h : Nat
deriving DecidableEq

/-- The SHA-256 initial hash value (fractional parts of square roots of the
first 8 primes). -/
def sha256H0 : SHA256State :=
  ⟨1779033703, 3144134277, 1013904242, 2773480762,
   1359893119, 2600822924, 528734635, 1541459225⟩

/-- Expand a 16-word block into the 64-word message schedule. -/
def sha256Schedule (block : List Nat) : List Nat :=
  (List.range 64).foldl
    (fun ws i =>
      if i < 16 then ws ++ [block.getD i 0]
      else
        let w15 := ws.getD (i - 15) 0
        let w2 := ws.getD (i - 2) 0
        let s0 := (rotr32 7 w15) ^^^ (rotr32 18 w15) ^^^ (w15 >>> 3)
        let s1 := (rotr32 17 w2) ^^^ (rotr32 19 w2) ^^^ (w2 >>> 10)
        ws ++ [(ws.getD (i - 16) 0 + s0 + ws.getD (i - 7) 0 + s1) % 2 ^ 32])
    []

/-- One round of the SHA-256 compression function, consuming a pair of a
round constant and a schedule word. -/
def sha256Round (st : SHA256State) (kw : Nat × Nat) : SHA256State :=
  let S1 := (rotr32 6 st.e) ^^^ (rotr32 11 st.e) ^^^ (rotr32 25 st.e)
  let ch := (st.e &&& st.f) ^^^ ((not32 st.e) &&& st.g)
  let temp1 := (st.h + S1 + ch + kw.1 + kw.2) % 2 ^ 32
  let S0 := (rotr32 2 st.a) ^^^ (rotr32 13 st.a) ^^^ (rotr32 22 st.a)
  let maj := (st.a &&& st.b) ^^^ (st.a &&& st.c) ^^^ (st.b &&& st.c)
  let temp2 := (S0 + maj) % 2 ^ 32
  ⟨(temp1 + temp2) % 2 ^ 32, st.a, st.b, st.c,
   (st.d + temp1) % 2 ^ 32, st.e, st.f, st.g⟩

/-- Compress one 512-bit block (given as 16 big-endian 32-bit words) into the
running hash state. -/
def sha256Compress (H : SHA256State) (block : List Nat) : SHA256State :=
  let st := (sha256K.zip (sha256Schedule block)).foldl sha256Round H
  ⟨(H.a + st.a) % 2 ^ 32, (H.b + st.b) % 2 ^ 32, (H.c + st.c) % 2 ^ 32,
   (H.d + st.d) % 2 ^ 32, (H.e + st.e) % 2 ^ 32, (H.f + st.f) % 2 ^ 32,
   (H.g + st.g) % 2 ^ 32, (H.h + st.h) % 2 ^ 32⟩

/-- Pack consecutive groups of 4 bytes into big-endian 32-bit words. -/
def bytesToWords : List Nat → List Nat
  | b0 :: b1 :: b2 :: b3 :: rest =>
      ((b0 <<< 24) ||| (b1 <<< 16) ||| (b2 <<< 8) ||| b3) :: bytesToWords rest
  | _ => []

/-- SHA-256 padding: append `0x80`, zero bytes, and the 64-bit big-endian bit
length, reaching a multiple of 64 bytes. -/
def sha256Pad (msg : List Nat) : List Nat :=
  let len := msg.length
  let zeros := (119 - len % 64) % 64
  msg ++ [0x80] ++ List.replicate zeros 0 ++
    (List.range 8).map (fun i => ((len * 8) >>> (8 * (7 - i))) &&& 0xFF)

/-- Fold the compression function over `n` consecutive 64-byte blocks. -/
def sha256Blocks : Nat → SHA256State → List Nat → SHA256State
  | 0, H, _ => H
  | n + 1, H, bytes =>
      sha256Blocks n (sha256Compress H (bytesToWords (bytes.take 64))) (bytes.drop 64)

/-- Serialize a 32-bit word to 4 big-endian bytes. -/
def wordToBytes (w : Nat) : List Nat :=
  [(w >>> 24) &&& 0xFF, (w >>> 16) &&& 0xFF, (w >>> 8) &&& 0xFF, w &&& 0xFF]

/-- The SHA-256 digest of a byte string, as its 32 digest bytes. -/
def sha256Bytes (msg : List Nat) : List Nat :=
  let padded := sha256Pad msg
  let st := sha256Blocks (padded.length / 64) sha256H0 padded
  [st.a, st.b, st.c, st.d, st.e, st.f, st.g, st.h].flatMap wordToBytes

/-- A nibble as a lowercase hexadecimal character. -/
def hexChar (n : Nat) : Char :=
  if n < 10 then Char.ofNat (48 + n) else Char.ofNat (87 + n)

/-- A byte as two lowercase hexadecimal characters (high nibble first). -/
def byteToHex (b : Nat) : List Char := [hexChar (b >>> 4), hexChar (b &&& 0xF)]

/-- `hashlib.sha256(msg).hexdigest()`: the digest as 64 lowercase hex chars. -/
def sha256Hexdigest (msg : List Nat) : String :=
  String.mk ((sha256Bytes msg).flatMap byteToHex)

/-- `hashlib.sha256(msg).hexdigest()[:32]`: the first 32 hex characters of
the digest (the Python slice, as a take on the character list). -/
def sha256Hex32 (msg : List Nat) : String :=
  String.mk (((sha256Bytes msg).flatMap byteToHex).take 32)

/-- UTF-8 encoding of one character, as Python `str.encode()` produces it. -/
def utf8EncodeChar (c : Char) : List Nat :=
  let n := c.toNat
  if n < 0x80 then [n]
  else if n < 0x800 then
    [0xC0 ||| (n >>> 6), 0x80 ||| (n &&& 0x3F)]
  else if n < 0x10000 then
    [0xE0 ||| (n >>> 12), 0x80 ||| ((n >>> 6) &&& 0x3F), 0x80 ||| (n &&& 0x3F)]
  else
    [0xF0 ||| (n >>> 18), 0x80 ||| ((n >>> 12) &&& 0x3F),
     0x80 ||| ((n >>> 6) &&& 0x3F), 0x80 ||| (n &&& 0x3F)]

/-- `text.encode()`: the UTF-8 bytes of a string. -/
def strToBytes (s : String) : List Nat := s.data.flatMap utf8EncodeChar

/-! ## Metadata (`ElementMetadata`) -/

/-- A Python value appearing in a metadata dictionary; `pynone` models the
Python `None` that the compacting serialization must never emit. -/
inductive MetaVal where
  | str : String → MetaVal
  | int : Int → MetaVal
  | pynone : MetaVal
deriving DecidableEq

/-- The `ElementMetadata` dataclass: three optional provenance fields, in the
dataclass field order `filename`, `page_number`, `url`.  (`__post_init__`
normalizes a `pathlib.Path` filename to its string; we model filenames already
as strings.) -/
structure ElementMetadata where
  filename : Option String
  page_number : Option Int
  url : Option String
deriving DecidableEq

/-- `ElementMetadata()`: the default metadata, all fields `None`. -/
def defaultMetadata : ElementMetadata := ⟨Option.none, Option.none, Option.none⟩

/-- `ElementMetadata.to_dict`: the dictionary of the fields whose value is not
`None`, in `__dict__` (field declaration) order. -/
def ElementMetadata.to_dict (m : ElementMetadata) : List (String × MetaVal) :=
  (match m.filename with
   | some v => [("filename", MetaVal.str v)]
   | Option.none => []) ++
  (match m.page_number with
   | some v => [("page_number", MetaVal.int v)]
   | Option.none => []) ++
  (match m.url with
   | some v => [("url", MetaVal.str v)]
   | Option.none => [])

/-- `ElementMetadata.from_dict`: `cls(**input_dict)`.  Keyword arguments are
looked up by field name, omitted fields default to `None`, and an unexpected
key is a `TypeError` (`Option.none` here).  The source performs no type check
on values; our typed model rejects an ill-typed value the same way. -/
def ElementMetadata.from_dict (d : List (String × MetaVal)) : Option ElementMetadata := do
  let fn ← match d.lookup "filename" with
    | Option.none => some Option.none
    | some (MetaVal.str s) => some (some s)
    | some _ => Option.none
  let pn ← match d.lookup "page_number" with
    | Option.none => some Option.none
    | some (MetaVal.int n) => some (some n)
    | some _ => Option.none
  let u ← match d.lookup "url" with
    | Option.none => some Option.none
    | some (MetaVal.str s) => some (some s)
    | some _ => Option.none
  if d.all (fun kv => kv.1 == "filename" || kv.1 == "page_number" || kv.1 == "url") then
    some ⟨fn, pn, u⟩
  else
    Option.none

/-! ## Elements

An element identifier is `Union[str, NoID]`; we model the `NoID` marker as
`Option.none`.  Python `List[float]` coordinates are stored and compared but
never computed with, so we model the floats as opaque rational values.
-/

/-- Coordinates: an ordered sequence of numbers, semantics opaque to this
core (Python `List[float]`, modelled with `Rat` values). -/
abbrev Coordinates := List Rat

/-- The fixed set of concrete text-element classes (each Python subclass of
`Text` carries its `category` class attribute). -/
inductive Category where
  | UncategorizedText
  | FigureCaption
  | NarrativeText
  | ListItem
  | Title
  | Address
  | Image
  | PageBreak
deriving DecidableEq

/-- The `category` class attribute of each text-element class. -/
def Category.tag : Category → String
  | .UncategorizedText => "UncategorizedText"
  | .FigureCaption => "FigureCaption"
  | .NarrativeText => "NarrativeText"
  | .ListItem => "ListItem"
  | .Title => "Title"
  | .Address => "Address"
  | .Image => "Image"
  | .PageBreak => "PageBreak"

/-- A text-bearing element: the state set up by `Text.__init__` (text, id,
coordinates, metadata) plus the class's `category`. -/
structure TextElem where
  text : String
  id : Option String
  coordinates : Option Coordinates
  metadata : ElementMetadata
  category : Category
deriving DecidableEq

/-- `Text.__init__(text, element_id=NoID(), coordinates=None,
metadata=ElementMetadata())` for the class with category `cat`: if
`element_id` is the `NoID` marker it becomes
`hashlib.sha256(text.encode()).hexdigest()[:32]`, then `Element.__init__`
stores id, coordinates and metadata. -/
def Text.init (cat : Category) (text : String) (element_id : Option String)
    (coordinates : Option Coordinates) (metadata : ElementMetadata) : TextElem :=
  let eid := match element_id with
    | some s => s
    | Option.none => sha256Hex32 (strToBytes text)
  { text := text, id := some eid, coordinates := coordinates,
    metadata := metadata, category := cat }

/-- `PageBreak.__init__(text=None, element_id=NoID(), coordinates=None,
metadata=ElementMetadata())`: ignores every argument and calls
`super().__init__(text="<PAGE BREAK>")`, so the other parameters of
`Text.__init__` take their defaults. -/
def PageBreak.init (text : Option String) (element_id : Option String)
    (coordinates : Option Coordinates) (metadata : ElementMetadata) : TextElem :=
  Text.init Category.PageBreak "<PAGE BREAK>" Option.none Option.none defaultMetadata

/-- A `CheckBox` element: the state set up by `CheckBox.__init__`. -/
structure CheckBoxElem where
  id : Option String
  coordinates : Option Coordinates
  checked : Bool
  metadata : ElementMetadata
deriving DecidableEq

/-- `CheckBox.__init__(element_id=NoID(), coordinates=None, checked=False,
metadata=ElementMetadata())`: stores the four attributes directly. -/
def CheckBox.init (element_id : Option String) (coordinates : Option Coordinates)
    (checked : Bool) (metadata : ElementMetadata) : CheckBoxElem :=
  ⟨element_id, coordinates, checked, metadata⟩

/-- `Text.__eq__`: `all([text equal, coordinates equal, category equal])`. -/
def Text.eqRel (a b : TextElem) : Prop :=
  a.text = b.text ∧ a.coordinates = b.coordinates ∧ a.category = b.category

instance (a b : TextElem) : Decidable (Text.eqRel a b) := by
  unfold Text.eqRel; infer_instance

/-- `CheckBox.__eq__`: `checked` equal and `coordinates` equal. -/
def CheckBox.eqRel (a b : CheckBoxElem) : Prop :=
  a.checked = b.checked ∧ a.coordinates = b.coordinates

instance (a b : CheckBoxElem) : Decidable (CheckBox.eqRel a b) := by
  unfold CheckBox.eqRel; infer_instance

/-- A value of the element dictionary form produced by `to_dict`. -/
inductive DictVal where
  | str : String → DictVal
  | optStr : Option String → DictVal
  | coords : Option Coordinates → DictVal
  | bool : Bool → DictVal
  | dict : List (String × MetaVal) → DictVal
deriving DecidableEq

/-- `Text.to_dict`: the five keys in source insertion order. -/
def Text.to_dict (e : TextElem) : List (String × DictVal) :=
  [("element_id", DictVal.optStr e.id),
   ("coordinates", DictVal.coords e.coordinates),
   ("text", DictVal.str e.text),
   ("type", DictVal.str e.category.tag),
   ("metadata", DictVal.dict e.metadata.to_dict)]

/-- `CheckBox.to_dict`: the five keys in source insertion order. -/
def CheckBox.to_dict (e : CheckBoxElem) : List (String × DictVal) :=
  [("type", DictVal.str "CheckBox"),
   ("checked", DictVal.bool e.checked),
   ("coordinates", DictVal.coords e.coordinates),
   ("element_id", DictVal.optStr e.id),
   ("metadata", DictVal.dict e.metadata.to_dict)]

/-- Per-class `to_markdown`, dispatched on the element's class. -/
def Text.to_markdown (e : TextElem) : String :=
  match e.category with
  | .UncategorizedText => "![](" ++ e.text ++ ")"
  | .FigureCaption => "![](" ++ e.text ++ ")"
  | .NarrativeText => e.text
  | .ListItem => "- " ++ e.text
  | .Title => "# " ++ e.text
  | .Address => e.text
  | .Image => ""
  | .PageBreak => "\n\n"

/-! ## Cleaning pipeline (`Text.apply`) -/

/-- A dynamically-typed Python value as seen by the cleaning pipeline:
`isinstance(v, str)` distinguishes `str` from everything else. -/
inductive PyVal where
  | str : String → PyVal
  | int : Int → PyVal
  | pynone : PyVal
deriving DecidableEq

/-- `isinstance(v, str)`. -/
def PyVal.isStr : PyVal → Bool
  | .str _ => true
  | _ => false

/-- A cleaning brick: a Python callable applied to the running value. -/
abbrev Cleaner := PyVal → PyVal

/-- The loop of `Text.apply`: `cleaned_text = self.text;
for cleaner in cleaners: cleaned_text = cleaner(cleaned_text)`. -/
def chainResult (t : String) (cleaners : List Cleaner) : PyVal :=
  cleaners.foldl (fun acc c => c acc) (PyVal.str t)

/-- `Text.apply(*cleaners)`: run the chain on a local value; if the final
value is not a `str`, raise `ValueError` (the element is left untouched,
since `self.text` is assigned only after the check); otherwise commit the
final value to `self.text`.  Returns the element state after the call and
the raised error, if any. -/
def Text.apply (e : TextElem) (cleaners : List Cleaner) : TextElem × Option String :=
  match chainResult e.text cleaners with
  | PyVal.str s => ({ e with text := s }, Option.none)
  | _ => (e, some "Cleaner produced a non-string output.")

/-! ## Type registry (`TYPE_TO_TEXT_ELEMENT_MAP`) -/

/-- The `PageBreak` entry of the registry: calling the `PageBreak` class with
a stored text and the usual constructor arguments. -/
def pageBreakEntry (text : String) (element_id : Option String)
    (coordinates : Option Coordinates) (metadata : ElementMetadata) : TextElem :=
  PageBreak.init (some text) element_id coordinates metadata

/-- `TYPE_TO_TEXT_ELEMENT_MAP`: category tag → class, in source order,
including the `BulletedText` alias for `ListItem`. -/
def TYPE_TO_TEXT_ELEMENT_MAP :
    List (String × (String → Option String → Option Coordinates → ElementMetadata → TextElem)) :=
  [("UncategorizedText", Text.init Category.UncategorizedText),
   ("FigureCaption", Text.init Category.FigureCaption),
   ("NarrativeText", Text.init Category.NarrativeText),
   ("ListItem", Text.init Category.ListItem),
   ("BulletedText", Text.init Category.ListItem),
   ("Title", Text.init Category.Title),
   ("Address", Text.init Category.Address),
   ("Image", Text.init Category.Image),
   ("PageBreak", pageBreakEntry)]

/-- Registry lookup by category tag. -/
def resolve (tag : String) :
    Option (String → Option String → Option Coordinates → ElementMetadata → TextElem) :=
  TYPE_TO_TEXT_ELEMENT_MAP.lookup tag

/-- The sixteen lowercase hexadecimal digit characters. -/
def hexDigits : List Char := "0123456789abcdef".data

/-! ## Concrete instances used in witnesses and counterexamples -/

/-- A cleaning brick that returns the non-string `0` on every input. -/
def nonStringCleaner : Cleaner := fun _ => PyVal.int 0

/-- A cleaning brick that returns the string `"x"` on every input. -/
def recoverCleaner : Cleaner := fun _ => PyVal.str "x"

/-- A cleaning brick that returns Python `None` on every input. -/
def noneCleaner : Cleaner := fun _ => PyVal.pynone

/-- A cleaning brick that uppercases a string and passes anything else on. -/
def upperCleaner : Cleaner := fun v =>
  match v with
  | PyVal.str s => PyVal.str s.toUpper
  | w => w

/-- A cleaning brick that appends `"!"` to a string and passes anything else
on. -/
def exclaimCleaner : Cleaner := fun v =>
  match v with
  | PyVal.str s => PyVal.str (s ++ "!")
  | w => w

/-- `Text("a")`. -/
def sampleTextElem : TextElem :=
  Text.init Category.UncategorizedText "a" Option.none Option.none defaultMetadata

/-- `NarrativeText("hi")`. -/
def hiElem : TextElem :=
  Text.init Category.NarrativeText "hi" Option.none Option.none defaultMetadata

/-! ## Helper lemmas -/

lemma hexChar_mem_hexDigits : ∀ n < 16, hexChar n ∈ hexDigits := by decide

lemma byteToHex_mem (b : Nat) (hb : b ≤ 255) : ∀ c ∈ byteToHex b, c ∈ hexDigits := by
  intro c hc
  simp only [byteToHex, List.mem_cons, List.not_mem_nil, or_false] at hc
  rcases hc with rfl | rfl
  · refine hexChar_mem_hexDigits _ ?_
    rw [Nat.shiftRight_eq_div_pow]
    omega
  · refine hexChar_mem_hexDigits _ ?_
    have : b &&& 0xF ≤ 0xF := Nat.and_le_right
    omega

lemma wordToBytes_le (w : Nat) : ∀ b ∈ wordToBytes w, b ≤ 255 := by
  intro b hb
  simp only [wordToBytes, List.mem_cons, List.not_mem_nil, or_false] at hb
  rcases hb with rfl | rfl | rfl | rfl <;> exact Nat.and_le_right

lemma sha256Bytes_le (msg : List Nat) : ∀ b ∈ sha256Bytes msg, b ≤ 255 := by
  intro b hb
  simp only [sha256Bytes, List.mem_flatMap] at hb
  obtain ⟨w, _, hbw⟩ := hb
  exact wordToBytes_le w b hbw

lemma sha256Bytes_length (msg : List Nat) : (sha256Bytes msg).length = 32 := by
  simp [sha256Bytes, wordToBytes]

lemma flatMap_byteToHex_length (l : List Nat) : (l.flatMap byteToHex).length = 2 * l.length := by
  induction l with
  | nil => simp
  | cons a l ih => simp [byteToHex, ih]; omega

lemma sha256Hex32_data (msg : List Nat) :
    (sha256Hex32 msg).data = ((sha256Bytes msg).flatMap byteToHex).take 32 := rfl

lemma sha256Hex32_data_length (msg : List Nat) : (sha256Hex32 msg).data.length = 32 := by
  rw [sha256Hex32_data, List.length_take, flatMap_byteToHex_length, sha256Bytes_length]
  norm_num

lemma sha256Hex32_mem (msg : List Nat) :
    ∀ c ∈ (sha256Hex32 msg).data, c ∈ hexDigits := by
  intro c hc
  rw [sha256Hex32_data] at hc
  have hc2 : c ∈ (sha256Bytes msg).flatMap byteToHex := List.take_subset _ _ hc
  rw [List.mem_flatMap] at hc2
  obtain ⟨b, hb, hcb⟩ := hc2
  exact byteToHex_mem b (sha256Bytes_le msg b hb) c hcb

lemma to_dict_no_pynone (m : ElementMetadata) :
    ∀ kv ∈ ElementMetadata.to_dict m, kv.2 ≠ MetaVal.pynone := by
  rcases m with ⟨f, p, u⟩
  intro kv hkv
  simp only [ElementMetadata.to_dict, List.mem_append] at hkv
  rcases hkv with (h | h) | h
  · cases f with
    | none => exact absurd h (List.not_mem_nil _)
    | some v => rw [List.mem_singleton] at h; subst h; simp
  · cases p with
    | none => exact absurd h (List.not_mem_nil _)
    | some v => rw [List.mem_singleton] at h; subst h; simp
  · cases u with
    | none => exact absurd h (List.not_mem_nil _)
    | some v => rw [List.mem_singleton] at h; subst h; simp

/-- Sanity check of the SHA-256 embedding against the FIPS 180-4 test vector
for the message `"abc"`. -/
theorem sha256_vector_abc :
    sha256Hexdigest (strToBytes "abc")
      = "ba7816bf8f01cfea414140de5dae2223b00361a396177a9cb410ff61f20015ad" := by rfl

/-- Sanity check of the SHA-256 embedding on the empty message. -/
theorem sha256_vector_empty :
    sha256Hexdigest (strToBytes "")
      = "e3b0c44298fc1c149afbf4c8996fb92427ae41e4649b934ca495991b7852b855" := by rfl

/-! ## Claim theorems -/

/-- C1: A text-bearing element constructed with text `s` and no explicit
identifier gets as identifier the first 32 lowercase-hex characters of the
SHA-256 digest of the UTF-8 bytes of `s` (a 32-character string over the
lowercase hex alphabet); two such constructions from the same text agree, and
an explicit string identifier is kept unchanged. -/
theorem C1_content_derived_identity (s : String) (cat : Category)
    (co : Option Coordinates) (m : ElementMetadata) :
    (Text.init cat s Option.none co m).id = some (sha256Hex32 (strToBytes s))
      ∧ (sha256Hex32 (strToBytes s)).data.length = 32
      ∧ (∀ c ∈ (sha256Hex32 (strToBytes s)).data, c ∈ hexDigits)
      ∧ (∀ (cat₂ : Category) (co₂ : Option Coordinates) (m₂ : ElementMetadata),
          (Text.init cat s Option.none co m).id = (Text.init cat₂ s Option.none co₂ m₂).id)
      ∧ (∀ eid : String, (Text.init cat s (some eid) co m).id = some eid) :=
  ⟨rfl, sha256Hex32_data_length _, sha256Hex32_mem _, fun _ _ _ => rfl, fun _ => rfl⟩

/-- C1 (witness): the identity rule evaluated at the concrete text `"abc"` —
the derived identifier is the first 32 hex characters of the `"abc"` digest,
and each of its characters is a lowercase hex digit. -/
theorem C1_witness :
    (Text.init Category.Title "abc" Option.none Option.none defaultMetadata).id
        = some (sha256Hex32 (strToBytes "abc"))
      ∧ sha256Hex32 (strToBytes "abc") = "ba7816bf8f01cfea414140de5dae2223"
      ∧ ('b' ∈ (sha256Hex32 (strToBytes "abc")).data → 'b' ∈ hexDigits)
      ∧ (Text.init Category.Title "abc" (some "explicit") Option.none defaultMetadata).id
        = some "explicit" :=
  ⟨(C1_content_derived_identity "abc" Category.Title Option.none defaultMetadata).1,
   by rfl,
   (C1_content_derived_identity "abc" Category.Title Option.none defaultMetadata).2.2.1 'b',
   (C1_content_derived_identity "abc" Category.Title Option.none
     defaultMetadata).2.2.2.2 "explicit"⟩

/-- C2: `Text.apply` never changes the element's identifier, whether the
pipeline succeeds or raises, and whatever the transforms do to the text. -/
theorem C2_apply_preserves_id (e : TextElem) (cleaners : List Cleaner) :
    ((Text.apply e cleaners).1).id = e.id := by
  unfold Text.apply
  cases chainResult e.text cleaners <;> rfl

/-- C3: A `PageBreak` is always constructed with the literal text
`"<PAGE BREAK>"`, and the supplied text, identifier, coordinates and metadata
arguments are discarded: the result equals the default construction. -/
theorem C3_pagebreak_ignores_arguments (t : Option String) (eid : Option String)
    (co : Option Coordinates) (m : ElementMetadata) :
    (PageBreak.init t eid co m).text = "<PAGE BREAK>"
      ∧ PageBreak.init t eid co m
          = PageBreak.init Option.none Option.none Option.none defaultMetadata :=
  ⟨rfl, rfl⟩

/-- C4 (amended): `Text.apply` raises the `ValueError` exactly when the final
value of the transform chain is not a string; an intermediate non-string
output is not checked. -/
theorem C4_amended_final_output_check (e : TextElem) (cleaners : List Cleaner) :
    (Text.apply e cleaners).2 = some "Cleaner produced a non-string output."
      ↔ (chainResult e.text cleaners).isStr = false := by
  unfold Text.apply
  cases chainResult e.text cleaners <;> simp [PyVal.isStr]

/-- C4 (counterexample): with a first transform returning the non-string `0`
and a second returning the string `"x"`, a transform's output in the chain is
not a string, yet `apply` reports no validation error and commits text
`"x"`. -/
theorem C4_counterexample :
    PyVal.isStr (nonStringCleaner (PyVal.str "a")) = false
      ∧ (Text.apply sampleTextElem [nonStringCleaner, recoverCleaner]).2 = Option.none
      ∧ (Text.apply sampleTextElem [nonStringCleaner, recoverCleaner]).1.text = "x" :=
  ⟨rfl, rfl, rfl⟩

/-- C5: On success `Text.apply` replaces the text with the strict
left-to-right fold of the transforms over the current text (each consuming
the previous output), and on the validation error the element is returned
unchanged — the mutation is committed only on success. -/
theorem C5_pipeline_order_and_atomicity (e : TextElem) (cleaners : List Cleaner) :
    ((Text.apply e cleaners).2 = Option.none →
        PyVal.str ((Text.apply e cleaners).1).text = chainResult e.text cleaners)
      ∧ ((Text.apply e cleaners).2 ≠ Option.none → (Text.apply e cleaners).1 = e)
      ∧ (∀ (c : Cleaner) (rest : List Cleaner),
          chainResult e.text (c :: rest)
            = rest.foldl (fun acc f => f acc) (c (PyVal.str e.text))) := by
  unfold Text.apply
  refine ⟨?_, ?_, fun c rest => rfl⟩ <;>
    cases chainResult e.text cleaners <;> simp

/-- C5 (witness): the pipeline `[uppercase, append "!"]` on `"hi"` commits the
left-to-right fold, and a pipeline producing `None` leaves the element
unchanged. -/
theorem C5_pipeline_witness :
    PyVal.str ((Text.apply hiElem [upperCleaner, exclaimCleaner]).1).text
        = chainResult "hi" [upperCleaner, exclaimCleaner]
      ∧ (Text.apply hiElem [noneCleaner]).1 = hiElem :=
  ⟨(C5_pipeline_order_and_atomicity hiElem [upperCleaner, exclaimCleaner]).1 (by rfl),
   (C5_pipeline_order_and_atomicity hiElem [noneCleaner]).2.1 (by decide)⟩

/-- C6: metadata round-trips through `to_dict`/`from_dict`; the serialized
dictionary holds exactly the present fields (never a `None` value), and a
record with only the page number set serializes to the single key
`"page_number"`. -/
theorem C6_metadata_roundtrip_and_compaction :
    (∀ m : ElementMetadata, ElementMetadata.from_dict (ElementMetadata.to_dict m) = some m)
      ∧ (∀ m : ElementMetadata,
          (("filename" ∈ (ElementMetadata.to_dict m).map Prod.fst) ↔ m.filename.isSome)
            ∧ (("page_number" ∈ (ElementMetadata.to_dict m).map Prod.fst) ↔ m.page_number.isSome)
            ∧ (("url" ∈ (ElementMetadata.to_dict m).map Prod.fst) ↔ m.url.isSome)
            ∧ (∀ kv ∈ ElementMetadata.to_dict m, kv.2 ≠ MetaVal.pynone))
      ∧ (∀ p : Int, ElementMetadata.to_dict ⟨Option.none, some p, Option.none⟩
            = [("page_number", MetaVal.int p)]) := by
  refine ⟨?_, ?_, fun p => rfl⟩
  · rintro ⟨f, p, u⟩
    cases f <;> cases p <;> cases u <;> rfl
  · intro m
    refine ⟨?_, ?_, ?_, to_dict_no_pynone m⟩ <;>
      · rcases m with ⟨f, p, u⟩
        cases f <;> cases p <;> cases u <;> simp [ElementMetadata.to_dict]

/-- C6 (witness): the round trip and the no-`None`-value guarantee evaluated
on the concrete record with filename `"doc.txt"` and page number 3. -/
theorem C6_witness :
    ElementMetadata.from_dict
        (ElementMetadata.to_dict ⟨some "doc.txt", some 3, Option.none⟩)
      = some ⟨some "doc.txt", some 3, Option.none⟩
      ∧ ("filename", MetaVal.str "doc.txt").2 ≠ MetaVal.pynone :=
  ⟨C6_metadata_roundtrip_and_compaction.1 ⟨some "doc.txt", some 3, Option.none⟩,
   (C6_metadata_roundtrip_and_compaction.2.1 ⟨some "doc.txt", some 3, Option.none⟩).2.2.2
     ("filename", MetaVal.str "doc.txt") (by decide)⟩

/-- C7: element equality is value equality excluding identifier and metadata:
two text elements are equal iff text, coordinates and category match, and two
checkboxes are equal iff checked flag and coordinates match, whatever
identifiers and metadata they were constructed with. -/
theorem C7_equality_excludes_id_and_metadata :
    (∀ (t₁ t₂ : String) (cat₁ cat₂ : Category) (co₁ co₂ : Option Coordinates)
        (i₁ i₂ : Option String) (m₁ m₂ : ElementMetadata),
        Text.eqRel (Text.init cat₁ t₁ i₁ co₁ m₁) (Text.init cat₂ t₂ i₂ co₂ m₂)
          ↔ (t₁ = t₂ ∧ co₁ = co₂ ∧ cat₁ = cat₂))
      ∧ (∀ (ch₁ ch₂ : Bool) (co₁ co₂ : Option Coordinates) (i₁ i₂ : Option String)
          (m₁ m₂ : ElementMetadata),
          CheckBox.eqRel (CheckBox.init i₁ co₁ ch₁ m₁) (CheckBox.init i₂ co₂ ch₂ m₂)
            ↔ (ch₁ = ch₂ ∧ co₁ = co₂)) :=
  ⟨fun _ _ _ _ _ _ _ _ _ _ => Iff.rfl, fun _ _ _ _ _ _ _ _ => Iff.rfl⟩

/-- C8: the markdown rendering per category: `UncategorizedText` and
`FigureCaption` wrap as `![](text)`, `NarrativeText` and `Address` render the
raw text, `ListItem` prepends `"- "`, `Title` prepends `"# "`, `Image` gives
the empty string, and `PageBreak` gives exactly two newline characters
regardless of its text. -/
theorem C8_markdown_table (t : String) (eid : Option String)
    (co : Option Coordinates) (m : ElementMetadata) :
    Text.to_markdown (Text.init Category.UncategorizedText t eid co m) = "![](" ++ t ++ ")"
      ∧ Text.to_markdown (Text.init Category.FigureCaption t eid co m) = "![](" ++ t ++ ")"
      ∧ Text.to_markdown (Text.init Category.NarrativeText t eid co m) = t
      ∧ Text.to_markdown (Text.init Category.Address t eid co m) = t
      ∧ Text.to_markdown (Text.init Category.ListItem t eid co m) = "- " ++ t
      ∧ Text.to_markdown (Text.init Category.Title t eid co m) = "# " ++ t
      ∧ Text.to_markdown (Text.init Category.Image t eid co m) = ""
      ∧ Text.to_markdown (Text.init Category.PageBreak t eid co m) = "\n\n"
      ∧ "\n\n".data = ['\n', '\n'] :=
  ⟨rfl, rfl, rfl, rfl, rfl, rfl, rfl, rfl, rfl⟩

/-- C9 (amended): for every registry entry other than the `"PageBreak"` one,
invoking the registered constructor with a stored text and a stored string
element id yields an element carrying exactly that id; the `"PageBreak"`
entry instead discards the stored id and re-derives it from the forced text
`"<PAGE BREAK>"`. -/
theorem C9_registry_preserves_stored_id (tag : String)
    (ctor : String → Option String → Option Coordinates → ElementMetadata → TextElem)
    (hmem : (tag, ctor) ∈ TYPE_TO_TEXT_ELEMENT_MAP) (hne : tag ≠ "PageBreak")
    (t : String) (eid : String) (co : Option Coordinates) (m : ElementMetadata) :
    (ctor t (some eid) co m).id = some eid := by
  fin_cases hmem <;> first | rfl | exact absurd rfl hne

/-- C9 (witness): the `"BulletedText"` alias entry reconstructs an element
with exactly the stored id. -/
theorem C9_registry_witness :
    (("BulletedText", Text.init Category.ListItem) ∈ TYPE_TO_TEXT_ELEMENT_MAP)
      ∧ (Text.init Category.ListItem "x" (some "stored-id") Option.none
          defaultMetadata).id = some "stored-id" :=
  have hm : ("BulletedText", Text.init Category.ListItem) ∈ TYPE_TO_TEXT_ELEMENT_MAP :=
    List.Mem.tail _ (List.Mem.tail _ (List.Mem.tail _ (List.Mem.tail _ (List.Mem.head _))))
  ⟨hm, C9_registry_preserves_stored_id "BulletedText" _ hm (by decide)
    "x" "stored-id" Option.none defaultMetadata⟩

/-- C9 (counterexample): the registry's `"PageBreak"` entry, invoked with
stored text `"some stored text"` and stored element id `"abc"`, does not
preserve the stored id. -/
theorem C9_counterexample :
    (("PageBreak", pageBreakEntry) ∈ TYPE_TO_TEXT_ELEMENT_MAP)
      ∧ (pageBreakEntry "some stored text" (some "abc") Option.none
          defaultMetadata).id ≠ some "abc" := by
  constructor
  · exact List.Mem.tail _ (List.Mem.tail _ (List.Mem.tail _ (List.Mem.tail _ (List.Mem.tail _
      (List.Mem.tail _ (List.Mem.tail _ (List.Mem.tail _ (List.Mem.head _))))))))
  · intro h
    have h0 : some (sha256Hex32 (strToBytes "<PAGE BREAK>")) = some "abc" := h
    have h2 : sha256Hex32 (strToBytes "<PAGE BREAK>") = "abc" := Option.some.inj h0
    have h3 := sha256Hex32_data_length (strToBytes "<PAGE BREAK>")
    rw [h2] at h3
    exact absurd h3 (by decide)

/-- C10: every `PageBreak` has the same state — the identifier derived from
`"<PAGE BREAK>"`, absent coordinates, default metadata — so any two are
equal, `__eq__`-equal, and indistinguishable through `to_dict` and
`to_markdown`. -/
theorem C10_pagebreak_uniform (t₁ t₂ : Option String) (e₁ e₂ : Option String)
    (c₁ c₂ : Option Coordinates) (m₁ m₂ : ElementMetadata) :
    (PageBreak.init t₁ e₁ c₁ m₁).id = some (sha256Hex32 (strToBytes "<PAGE BREAK>"))
      ∧ (PageBreak.init t₁ e₁ c₁ m₁).coordinates = Option.none
      ∧ (PageBreak.init t₁ e₁ c₁ m₁).metadata = defaultMetadata
      ∧ PageBreak.init t₁ e₁ c₁ m₁ = PageBreak.init t₂ e₂ c₂ m₂
      ∧ Text.eqRel (PageBreak.init t₁ e₁ c₁ m₁) (PageBreak.init t₂ e₂ c₂ m₂)
      ∧ Text.to_dict (PageBreak.init t₁ e₁ c₁ m₁) = Text.to_dict (PageBreak.init t₂ e₂ c₂ m₂)
      ∧ Text.to_markdown (PageBreak.init t₁ e₁ c₁ m₁)
          = Text.to_markdown (PageBreak.init t₂ e₂ c₂ m₂) :=
  ⟨rfl, rfl, rfl, rfl, ⟨rfl, rfl, rfl⟩, rfl, rfl⟩

end Unstructured
